import Mathlib

/-!
Verification of the express-backend-template repository.

This file gives a shallow embedding of the request-handling logic of the
repository (query parsing, filter construction, pagination, the auth and
error middlewares, and the example `incrementCount` handler), translated
from the TypeScript source, and proves the specification claims about it.

JavaScript numbers are modelled as `JSNum` (NaN, signed infinity, or an
exact rational); `parseInt` / `parseFloat` are implemented following the
ECMAScript algorithms (whitespace skipping, sign, longest valid prefix,
hex prefix when no radix is given).  Query parameters are `Option String`
(`none` = absent), and JS truthiness of a parameter is emptiness/absence.
-/

/-- A JavaScript number: NaN, positive or negative Infinity, or a finite value (modelled
exactly as a rational; double rounding is not modelled). -/
inductive JSNum where
  | nan : JSNum
  | inf : Bool → JSNum
  | num : ℚ → JSNum
deriving DecidableEq, Repr

/-- ASCII whitespace accepted by JS `parseInt`/`parseFloat`. -/
def jsWhitespace (c : Char) : Bool :=
  c = ' ' || c = '\t' || c = '\n' || c = '\r' || c.toNat = 11 || c.toNat = 12

/-- Digit value of a character in bases up to 36 (as in `parseInt`). -/
def digitVal (c : Char) : Option Nat :=
  if c.toNat ≥ 48 && c.toNat ≤ 57 then some (c.toNat - 48)
  else if c.toNat ≥ 97 && c.toNat ≤ 122 then some (c.toNat - 87)
  else if c.toNat ≥ 65 && c.toNat ≤ 90 then some (c.toNat - 55)
  else none

/-- Consume the longest prefix of digits valid in radix `R`, returning the
accumulated value, or `none` when no digit was consumed (JS `NaN`). -/
def parseDigits (R : Nat) : List Char → Nat → Bool → Option Nat
  | [], acc, got => if got then some acc else none
  | c :: rest, acc, got =>
    match digitVal c with
    | some v =>
      if v < R then parseDigits R rest (acc * R + v) true
      else if got then some acc else none
    | none => if got then some acc else none

/-- ECMAScript `parseInt(s)` / `parseInt(s, 10)`: skip whitespace, optional
sign, optional `0x` prefix when no radix was passed, then the longest run
of digits; `none` models `NaN`. -/
def jsParseIntCore (s : String) (radixTen : Bool) : Option Int :=
  let cs := s.data.dropWhile jsWhitespace
  let signed : Int × List Char :=
    match cs with
    | '-' :: r => (-1, r)
    | '+' :: r => (1, r)
    | r => (1, r)
  let based : Nat × List Char :=
    if radixTen then (10, signed.2)
    else
      match signed.2 with
      | '0' :: 'x' :: r => (16, r)
      | '0' :: 'X' :: r => (16, r)
      | r => (10, r)
  match parseDigits based.1 based.2 0 false with
  | some v => some (signed.1 * v)
  | none => none

/-- `parseInt` applied to an optional query parameter (`none` = absent,
which JS stringifies to "undefined" and parses to `NaN`). -/
def jsParseInt (v : Option String) (radixTen : Bool) : Option Int :=
  match v with
  | none => none
  | some s => jsParseIntCore s radixTen

/-- JS `x || d` for a parsed integer: `NaN` and `0` are falsy. -/
def jsOrDefault (x : Option Int) (d : Int) : Int :=
  match x with
  | none => d
  | some n => if n = 0 then d else n

/-- JS truthiness of an optional string query parameter: absent and the
empty string are falsy. -/
def qTruthy (v : Option String) : Bool :=
  match v with
  | none => false
  | some s => !s.isEmpty

/-- Digits of a mantissa to a natural number. -/
def digitsToNat (ds : List Char) : Nat :=
  ds.foldl (fun acc c => acc * 10 + (c.toNat - 48)) 0

/-- Parse the decimal-literal mantissa prefix for `parseFloat`:
`digits [. digits]` or `. digits`; `none` when no digit is present. -/
def parseMantissa (cs : List Char) : Option (ℚ × List Char) :=
  let ip := cs.takeWhile Char.isDigit
  let rest1 := cs.dropWhile Char.isDigit
  match rest1 with
  | '.' :: rest2 =>
    let fp := rest2.takeWhile Char.isDigit
    let rest3 := rest2.dropWhile Char.isDigit
    if ip.isEmpty && fp.isEmpty then none
    else some ((digitsToNat ip : ℚ) + (digitsToNat fp : ℚ) / (10 : ℚ) ^ fp.length, rest3)
  | _ =>
    if ip.isEmpty then none
    else some ((digitsToNat ip : ℚ), rest1)

/-- Exponent digits after `e`/`E` and an optional sign; `none` when the
exponent part is malformed (in which case it is not part of the literal). -/
def expVal (r : List Char) : Option Int :=
  let ds := r.takeWhile Char.isDigit
  if ds.isEmpty then none else some (digitsToNat ds : Int)

/-- Parse the optional exponent part of a decimal literal; a malformed
exponent contributes a factor of 10^0. -/
def parseExp : List Char → Int
  | 'e' :: '+' :: r => (expVal r).getD 0
  | 'e' :: '-' :: r => -((expVal r).getD 0)
  | 'e' :: r => (expVal r).getD 0
  | 'E' :: '+' :: r => (expVal r).getD 0
  | 'E' :: '-' :: r => -((expVal r).getD 0)
  | 'E' :: r => (expVal r).getD 0
  | _ => 0

/-- Body of `parseFloat` after the sign: `Infinity`, or a decimal literal
with optional exponent; NaN when no literal prefix exists. -/
def parseFloatBody (cs : List Char) (neg : Bool) : JSNum :=
  if cs.take 8 = "Infinity".data then JSNum.inf (!neg)
  else
    match parseMantissa cs with
    | none => JSNum.nan
    | some (m, rest) =>
      let q := m * (10 : ℚ) ^ parseExp rest
      JSNum.num (if neg then -q else q)

/-- ECMAScript `parseFloat`: skip whitespace, optional sign, then the
longest valid decimal-literal prefix. -/
def jsParseFloatStr (s : String) : JSNum :=
  match s.data.dropWhile jsWhitespace with
  | '-' :: r => parseFloatBody r true
  | '+' :: r => parseFloatBody r false
  | r => parseFloatBody r false

/-- `parseFloat` of an optional query parameter (absent gives NaN). -/
def jsParseFloat (v : Option String) : JSNum :=
  match v with
  | none => JSNum.nan
  | some s => jsParseFloatStr s

/-!
## The operator-token rewrite

`getProducts` serializes the copied query object and runs
`queryStr.replace(/\b(gt|gte|lt|lte|in)\b/g, m => '$' + m)` on the whole
string.  `replaceOps` implements exactly this regex replacement: a token
matches when the position is at a word boundary, the alternatives are
tried in the pattern's order (`gt` before `gte`, so `gt` only matches when
not followed by a word character), and scanning resumes after the match.
-/

/-- JS regex word character (`\w`, ASCII). -/
def isWordChar (c : Char) : Bool :=
  c.isAlpha || c.isDigit || c = '_'

/-- There is a word boundary between a word character and the start of
this list (end of input or a non-word character). -/
def boundary : List Char → Bool
  | [] => true
  | c :: _ => !isWordChar c

/-- One left-to-right pass of the global regex replacement; the flag
records whether the previous character was a word character (so `\b`
fails at this position).  When a token's trailing boundary fails, the
engine advances one character at a time; since the token's characters
are all word characters, `\b` keeps failing inside it, so this is the
same as copying the token and resuming after it with the flag set. -/
def replaceOpsAux : List Char → Bool → List Char
  | [], _ => []
  | c :: rest, true => c :: replaceOpsAux rest (isWordChar c)
  | 'g' :: 't' :: 'e' :: r, false =>
    if boundary r then '$' :: 'g' :: 't' :: 'e' :: replaceOpsAux r true
    else 'g' :: 't' :: 'e' :: replaceOpsAux r true
  | 'g' :: 't' :: r, false =>
    if boundary r then '$' :: 'g' :: 't' :: replaceOpsAux r true
    else 'g' :: 't' :: replaceOpsAux r true
  | 'l' :: 't' :: 'e' :: r, false =>
    if boundary r then '$' :: 'l' :: 't' :: 'e' :: replaceOpsAux r true
    else 'l' :: 't' :: 'e' :: replaceOpsAux r true
  | 'l' :: 't' :: r, false =>
    if boundary r then '$' :: 'l' :: 't' :: replaceOpsAux r true
    else 'l' :: 't' :: replaceOpsAux r true
  | 'i' :: 'n' :: r, false =>
    if boundary r then '$' :: 'i' :: 'n' :: replaceOpsAux r true
    else 'i' :: 'n' :: replaceOpsAux r true
  | c :: rest, false => c :: replaceOpsAux rest (isWordChar c)

/-- The whole-string rewrite of bare operator tokens into `$`-operators
(line 167 of `productController.ts`). -/
def replaceOps (s : String) : String :=
  String.mk (replaceOpsAux s.data false)

/-!
## JSON round-trip of the copied query

The handler runs `JSON.parse(queryStr)` on the rewritten serialization of
the copied query object.  The copied query (`{...req.query}` with the
reserved keys deleted) is a flat object with string values, so
`jsonStringifyFlat` implements `JSON.stringify` for that shape, and
`jsonParseFlat` is `JSON.parse` restricted to one-level string-valued
objects (the only shape reachable here: the rewrite only inserts `$`
inside quoted key/value content, never creating other value shapes).
-/

/-- Lowercase hex digit. -/
def hexDigit (n : Nat) : Char :=
  if n < 10 then Char.ofNat (48 + n) else Char.ofNat (87 + n)

/-- `JSON.stringify` escaping of a single character. -/
def jsonEscapeChar (c : Char) : List Char :=
  if c = '"' then ['\\', '"']
  else if c = '\\' then ['\\', '\\']
  else if c.toNat = 8 then ['\\', 'b']
  else if c.toNat = 9 then ['\\', 't']
  else if c.toNat = 10 then ['\\', 'n']
  else if c.toNat = 12 then ['\\', 'f']
  else if c.toNat = 13 then ['\\', 'r']
  else if c.toNat < 32 then ['\\', 'u', '0', '0', hexDigit (c.toNat / 16), hexDigit (c.toNat % 16)]
  else [c]

/-- A JSON string literal (quotes plus escaped content). -/
def jsonQuote (s : String) : List Char :=
  '"' :: (s.data.foldr (fun c acc => jsonEscapeChar c ++ acc) ['"'])

/-- Comma-join serialized members. -/
def joinComma : List (List Char) → List Char
  | [] => []
  | [x] => x
  | x :: xs => x ++ ',' :: joinComma xs

/-- `JSON.stringify` of a flat string-valued object, keys in insertion
order, no added whitespace. -/
def jsonStringifyFlat (m : List (String × String)) : String :=
  String.mk ('\x7b' :: joinComma (m.map (fun kv => jsonQuote kv.1 ++ ':' :: jsonQuote kv.2)) ++ ['\x7d'])

/-- Skip JSON insignificant whitespace. -/
def skipWs (cs : List Char) : List Char :=
  cs.dropWhile (fun c => c = ' ' || c = '\t' || c = '\n' || c = '\r')

/-- Hex digit value for `\uXXXX` escapes. -/
def hexVal (c : Char) : Option Nat :=
  match digitVal c with
  | some v => if v < 16 then some v else none
  | none => none

/-- Parse the body of a JSON string literal (after the opening quote),
returning the decoded characters and the remaining input. -/
def parseJStringAux : List Char → List Char → Option (List Char × List Char)
  | [], _ => none
  | '"' :: rest, acc => some (acc.reverse, rest)
  | '\\' :: '"' :: rest, acc => parseJStringAux rest ('"' :: acc)
  | '\\' :: '\\' :: rest, acc => parseJStringAux rest ('\\' :: acc)
  | '\\' :: '/' :: rest, acc => parseJStringAux rest ('/' :: acc)
  | '\\' :: 'b' :: rest, acc => parseJStringAux rest (Char.ofNat 8 :: acc)
  | '\\' :: 'f' :: rest, acc => parseJStringAux rest (Char.ofNat 12 :: acc)
  | '\\' :: 'n' :: rest, acc => parseJStringAux rest ('\n' :: acc)
  | '\\' :: 'r' :: rest, acc => parseJStringAux rest ('\r' :: acc)
  | '\\' :: 't' :: rest, acc => parseJStringAux rest ('\t' :: acc)
  | '\\' :: 'u' :: a :: b :: c :: d :: rest, acc =>
    (match hexVal a, hexVal b, hexVal c, hexVal d with
     | some ha, some hb, some hc, some hd =>
       parseJStringAux rest (Char.ofNat (((ha * 16 + hb) * 16 + hc) * 16 + hd) :: acc)
     | _, _, _, _ => none)
  | '\\' :: _ :: _, _ => none
  | ['\\'], _ => none
  | c :: rest, acc => if c.toNat < 32 then none else parseJStringAux rest (c :: acc)

/-- Parse one `"key":"value"` member. -/
def parseJPair (cs : List Char) : Option ((String × String) × List Char) :=
  match skipWs cs with
  | '"' :: r =>
    match parseJStringAux r [] with
    | some (k, r2) =>
      (match skipWs r2 with
       | ':' :: r3 =>
         (match skipWs r3 with
          | '"' :: r4 =>
            (match parseJStringAux r4 [] with
             | some (v, r5) => some ((String.mk k, String.mk v), r5)
             | none => none)
          | _ => none)
       | _ => none)
    | none => none
  | _ => none

/-- Parse the comma-separated members of an object up to the closing
brace; the fuel is an upper bound on the number of members (each one
consumes input, so `length + 1` fuel is never exhausted first). -/
def parsePairsLoop : Nat → List Char → List (String × String) → Option (List (String × String) × List Char)
  | 0, _, _ => none
  | fuel + 1, cs, acc =>
    match parseJPair cs with
    | none => none
    | some (kv, rest) =>
      match skipWs rest with
      | ',' :: r2 => parsePairsLoop fuel r2 (acc ++ [kv])
      | '\x7d' :: r2 => some (acc ++ [kv], r2)
      | _ => none

/-- `JSON.parse` restricted to a flat string-valued object; `none` models
a thrown `SyntaxError`. -/
def jsonParseFlat (s : String) : Option (List (String × String)) :=
  match skipWs s.data with
  | '\x7b' :: r =>
    (match skipWs r with
     | '\x7d' :: r2 => if (skipWs r2).isEmpty then some [] else none
     | r1 =>
       match parsePairsLoop (r1.length + 1) r1 [] with
       | some (m, rest) => if (skipWs rest).isEmpty then some m else none
       | none => none)
  | _ => none

/-!
## Data model and the product list filter (`getProducts`)
-/

/-- A product document (the fields declared by the Product schema). -/
structure ProductDoc where
  name : String
  description : String
  price : ℚ
  category : String
  inStock : Bool
  quantity : Nat
  tags : List String
deriving DecidableEq, Repr

/-- An example document (the fields declared by the Example schema). -/
structure ExampleDoc where
  title : String
  description : String
  isActive : Bool
  tags : List String
  count : Int
deriving DecidableEq, Repr

/-- The query string of a product list request.  The reserved control
keys are explicit optional fields; `other` is the rest of the query in
order (exactly what survives the `removeFields` deletion on the copied
query), with flat string values. -/
structure ProductQuery where
  search : Option String := none
  minPrice : Option String := none
  maxPrice : Option String := none
  pageQ : Option String := none
  limitQ : Option String := none
  selectQ : Option String := none
  sortQ : Option String := none
  other : List (String × String) := []
deriving DecidableEq, Repr

/-- The `price` condition merged into the filter by the minPrice/maxPrice
block (`$gte` / `$lte` bounds, each a JS number when set). -/
structure PriceCond where
  gte : Option JSNum := none
  lte : Option JSNum := none
deriving DecidableEq, Repr

/-- The filter passed to `Product.find` / `Product.countDocuments`:
either the rewritten copied query plus an optional price condition, or —
when `search` is truthy — only the full-text search condition
`\x7b$text: \x7b$search: s\x7d\x7d`. -/
inductive DbFilter where
  | query (base : List (String × String)) (price : Option PriceCond)
  | textSearch (s : String)
deriving DecidableEq, Repr

/-- A JavaScript error value as seen by the error middleware: its `name`,
`message` and `stack`, and — when it is an instance of the `ApiError`
class — the explicit `statusCode` it carries. -/
structure JsError where
  name : String
  message : String
  stackTrace : String := ""
  apiStatus : Option Nat := none
deriving DecidableEq, Repr

/-- `new ApiError(statusCode, message)`. -/
def apiError (statusCode : Nat) (message : String) : JsError :=
  { name := "ApiError", message := message, apiStatus := some statusCode }

/-- First value bound to a key in the parsed filter object. -/
def lookupKey (k : String) : List (String × String) → Option String
  | [] => none
  | (k', v) :: rest => if k' = k then some v else lookupKey k rest

/-- Remove a key from the parsed filter object (the assignment
`filter.price = \x7b...\x7d` replaces any copied `price` entry). -/
def eraseKey (k : String) (m : List (String × String)) : List (String × String) :=
  m.filter (fun kv => kv.1 ≠ k)

/-- The `minPrice`/`maxPrice` block: when either is truthy, build the
price condition on `filter.price`.  If the copied query already bound
`price` to a truthy (non-empty) string, `filter.price || \x7b\x7d` keeps that
primitive string and the property assignment `filter.price.$gte = ...`
throws a strict-mode `TypeError` (modelled as `Except.error`). -/
def priceStep (base : List (String × String)) (minP maxP : Option String) :
    Except JsError (List (String × String) × Option PriceCond) :=
  if qTruthy minP || qTruthy maxP then
    match lookupKey "price" base with
    | some v =>
      if v.isEmpty then
        Except.ok (eraseKey "price" base,
          some { gte := if qTruthy minP then some (jsParseFloat minP) else none,
                 lte := if qTruthy maxP then some (jsParseFloat maxP) else none })
      else
        Except.error { name := "TypeError",
                       message := "Cannot create property on string" }
    | none =>
      Except.ok (eraseKey "price" base,
        some { gte := if qTruthy minP then some (jsParseFloat minP) else none,
               lte := if qTruthy maxP then some (jsParseFloat maxP) else none })
  else
    Except.ok (base, none)

/-- Lines 148–194 of `productController.ts`: copy the query, drop the
reserved keys, `JSON.stringify`, rewrite the operator tokens,
`JSON.parse`, merge the price range, and finally — when `search` is
truthy — replace the whole filter with the text-search condition.
`Except.error` models an exception reaching the handler's `catch`. -/
def buildFilterE (q : ProductQuery) : Except JsError DbFilter :=
  match jsonParseFlat (replaceOps (jsonStringifyFlat q.other)) with
  | none => Except.error { name := "SyntaxError", message := "Unexpected token" }
  | some base =>
    match priceStep base q.minPrice q.maxPrice with
    | Except.error e => Except.error e
    | Except.ok (base2, price) =>
      match q.search with
      | some s => if !s.isEmpty then Except.ok (DbFilter.textSearch s)
                  else Except.ok (DbFilter.query base2 price)
      | none => Except.ok (DbFilter.query base2 price)

/-!
## Pagination (lines 217–250 of `productController.ts`)
-/

/-- `parseInt(req.query.page, 10) || 1`. -/
def pageOf (q : ProductQuery) : Int :=
  jsOrDefault (jsParseInt q.pageQ true) 1

/-- `parseInt(req.query.limit, 10) || 10`. -/
def limitOf (q : ProductQuery) : Int :=
  jsOrDefault (jsParseInt q.limitQ true) 10

/-- A `next`/`prev` page descriptor. -/
structure PageRef where
  page : Int
  limit : Int
deriving DecidableEq, Repr

/-- The pagination summary object of the list response. -/
structure Pagination where
  totalPages : Int
  totalItems : Nat
  next : Option PageRef := none
  prev : Option PageRef := none
deriving DecidableEq, Repr

/-- `Math.ceil(total / limit)` (exact rational division; `limit` is never
0 here because `0 || 10` defaults). -/
def jsCeilDiv (total : Nat) (limit : Int) : Int :=
  Int.ceil ((total : ℚ) / (limit : ℚ))

/-- The pagination result computed by `getProducts` from the parsed page
and limit and the counted total. -/
def paginate (q : ProductQuery) (total : Nat) : Pagination :=
  let page := pageOf q
  let limit := limitOf q
  let startIndex := (page - 1) * limit
  let endIndex := page * limit
  { totalPages := jsCeilDiv total limit
    totalItems := total
    next := if endIndex < (total : Int) then some ⟨page + 1, limit⟩ else none
    prev := if startIndex > 0 then some ⟨page - 1, limit⟩ else none }

/-!
## Centralized error middleware (`errorHandler.ts`)
-/

/-- The JSON body (with its HTTP status) produced by the error
middleware: `success: false`, an `error` message, and a `stack` field
that is present only when it is not `undefined`. -/
structure ErrorBody where
  status : Nat
  error : String
  stack : Option String := none
deriving DecidableEq, Repr

/-- `errorHandler(err, req, res, next)`: an `ApiError` passes its status
and message through; `UnauthorizedError` maps to 401, `ValidationError`
to 400, anything else to 500 "Server Error".  The `stack` field is
`err.stack` when `process.env.NODE_ENV === 'development'` and is omitted
(`undefined`) otherwise. -/
def errorHandler (err : JsError) (env : Option String) : ErrorBody :=
  let stk : Option String := if env = some "development" then some err.stackTrace else none
  match err.apiStatus with
  | some code => { status := code, error := err.message, stack := stk }
  | none =>
    if err.name = "UnauthorizedError" then
      { status := 401, error := "Unauthorized: Invalid token", stack := stk }
    else if err.name = "ValidationError" then
      { status := 400, error := err.message, stack := stk }
    else
      { status := 500, error := "Server Error", stack := stk }

/-- `notFoundHandler`: the app-level fallback for requests no route
matched. -/
def notFoundResponse (originalUrl : String) : ErrorBody :=
  { status := 404, error := "Not Found - " ++ originalUrl }

/-!
## The product list and get-by-id handlers
-/

/-- Outcome of the two persistence calls made by the list handler
(`countDocuments` then executing the `find` query), abstracted over the
filter actually passed to them. -/
inductive ListDb where
  | ok (total : Nat) (items : List ProductDoc)
  | failure (e : JsError)

/-- Body of a successful list response (`success: true`). -/
structure ListOk where
  count : Nat
  pagination : Pagination
  data : List ProductDoc
deriving DecidableEq, Repr

/-- A product list response: 200 with items and pagination, or whatever
the error middleware produced from a forwarded error. -/
inductive ListResponse where
  | ok (body : ListOk)
  | err (b : ErrorBody)
deriving DecidableEq, Repr

/-- HTTP status of a list response. -/
def ListResponse.status : ListResponse → Nat
  | .ok _ => 200
  | .err b => b.status

/-- `getProducts`: build the filter (any exception is forwarded to the
error middleware), run the persistence calls on that filter, and answer
200 with the items and the pagination summary. -/
def getProducts (q : ProductQuery) (db : DbFilter → ListDb) (env : Option String) : ListResponse :=
  match buildFilterE q with
  | Except.error e => ListResponse.err (errorHandler e env)
  | Except.ok f =>
    match db f with
    | ListDb.failure e => ListResponse.err (errorHandler e env)
    | ListDb.ok total items =>
      ListResponse.ok { count := items.length, pagination := paginate q total, data := items }

/-- Outcome of a `findById`-style lookup: a document, `null`, a
`CastError` thrown for a malformed identifier, or another thrown error. -/
inductive DbFind (α : Type) where
  | found (a : α)
  | absent
  | castErr
  | failure (e : JsError)

/-- A single-document response: 200 with the document, or an error body. -/
inductive DocResponse (α : Type) where
  | ok (data : α)
  | err (b : ErrorBody)
deriving DecidableEq, Repr

/-- HTTP status of a single-document response. -/
def DocResponse.status {α : Type} : DocResponse α → Nat
  | .ok _ => 200
  | .err b => b.status

/-- `getProductById`: 200 when found; `next(new ApiError(404, ...))` when
the document is `null` or when the catch block sees a
`mongoose.Error.CastError`; any other error is forwarded unchanged. -/
def getProductById (id : String) (db : DbFind ProductDoc) (env : Option String) :
    DocResponse ProductDoc :=
  match db with
  | DbFind.found p => DocResponse.ok p
  | DbFind.absent => DocResponse.err (errorHandler (apiError 404 ("Product not found with id of " ++ id)) env)
  | DbFind.castErr => DocResponse.err (errorHandler (apiError 404 ("Product not found with id of " ++ id)) env)
  | DbFind.failure e => DocResponse.err (errorHandler e env)

/-!
## Authentication middleware (`authMiddleware.ts`)
-/

/-- A stored user record, as held by the persistence layer. -/
structure StoredUser where
  id : String
  name : String
  email : String
  passwordHash : String
  role : String
deriving DecidableEq, Repr

/-- The user attached to the request by `protect`: resolved with
`.select('-password')`, so the password hash is excluded. -/
structure SafeUser where
  id : String
  name : String
  email : String
  role : String
deriving DecidableEq, Repr

/-- The projection `.select('-password')` applied to a stored record. -/
def sanitizeUser (u : StoredUser) : SafeUser :=
  { id := u.id, name := u.name, email := u.email, role := u.role }

/-- Outcome of `jwt.verify`: the decoded payload's `id`, or a thrown
verification error (bad signature, expired, malformed). -/
inductive VerifyResult where
  | ok (id : String)
  | fail
deriving DecidableEq, Repr

/-- Outcome of `User.findById(decoded.id).select('-password')`. -/
inductive UserLookup where
  | found (u : StoredUser)
  | missing
  | dbError (e : JsError)

/-- What a middleware does: forward an error to the error middleware, or
pass control onward (with the value it attached to the request). -/
inductive MwResult (α : Type) where
  | nextError (e : JsError)
  | pass (a : α)
deriving DecidableEq, Repr

/-- JS `String.prototype.split(' ')`: split at every single space,
keeping empty fields. -/
def splitOnSpaceAux : List Char → List Char → List String
  | [], cur => [String.mk cur.reverse]
  | ' ' :: rest, cur => String.mk cur.reverse :: splitOnSpaceAux rest []
  | c :: rest, cur => splitOnSpaceAux rest (c :: cur)

/-- JS `s.split(' ')`. -/
def jsSplitSpace (s : String) : List String :=
  splitOnSpaceAux s.data []

/-- Token extraction: when the Authorization header exists and starts
with "Bearer", the token is `header.split(' ')[1]`. -/
def extractToken (auth : Option String) : Option String :=
  match auth with
  | none => none
  | some a =>
    if "Bearer".data.isPrefixOf a.data then (jsSplitSpace a).get? 1 else none

/-- The `protect` middleware.  A falsy token (absent header, header not
starting with "Bearer", or nothing after the space) fails with
"no token"; a throwing `jwt.verify` — and any error thrown by the user
lookup, both being inside the same try/catch — fails with
"invalid token"; a missing user fails with "user not found"; otherwise
the sanitized user is attached and control passes on. -/
def protect (auth : Option String) (verify : String → VerifyResult)
    (findUser : String → UserLookup) : MwResult SafeUser :=
  match extractToken auth with
  | none => MwResult.nextError (apiError 401 "Not authorized, no token")
  | some t =>
    if t.isEmpty then MwResult.nextError (apiError 401 "Not authorized, no token")
    else
      match verify t with
      | VerifyResult.fail => MwResult.nextError (apiError 401 "Not authorized, invalid token")
      | VerifyResult.ok uid =>
        match findUser uid with
        | UserLookup.dbError _ => MwResult.nextError (apiError 401 "Not authorized, invalid token")
        | UserLookup.missing => MwResult.nextError (apiError 401 "Not authorized, user not found")
        | UserLookup.found u => MwResult.pass (sanitizeUser u)

/-- The `authorize(roles)` middleware: 401 when no user was attached to
the request, 403 when the attached user's role is not in the permitted
list, otherwise pass. -/
def authorize (roles : List String) (user : Option SafeUser) : MwResult Unit :=
  match user with
  | none => MwResult.nextError (apiError 401 "Not authorized, no user")
  | some u =>
    if roles.contains u.role then MwResult.pass ()
    else MwResult.nextError
      (apiError 403 ("User role " ++ u.role ++ " is not authorized to access this route"))

/-!
## The examples router and `incrementCount`

The examples router (mounted at `/api/examples`) registers
`GET /`, `POST /`, `GET|PUT|DELETE /:id`, `PATCH /:id/increment`,
`POST /:id/tags` and `DELETE /:id/tags/:tag`.  A request under
`/api/examples` that no registration matches falls through to the
app-level `notFoundHandler`.
-/

/-- HTTP method of a request. -/
inductive Method where
  | get | post | put | patchM | deleteM
deriving DecidableEq, Repr

/-- The handlers registered on the examples router. -/
inductive ExampleHandler where
  | getExamples | createExample | getExampleById | updateExample
  | deleteExample | incrementCount | addTags | removeTag
deriving DecidableEq, Repr

/-- Route dispatch of the examples router over the path segments below
its mount point (`:id` matches any single segment; literal segments must
match exactly). -/
def matchExampleRoute (m : Method) (segs : List String) : Option ExampleHandler :=
  match m, segs with
  | Method.get, [] => some ExampleHandler.getExamples
  | Method.post, [] => some ExampleHandler.createExample
  | Method.get, [_] => some ExampleHandler.getExampleById
  | Method.put, [_] => some ExampleHandler.updateExample
  | Method.deleteM, [_] => some ExampleHandler.deleteExample
  | Method.patchM, [_, s] => if s = "increment" then some ExampleHandler.incrementCount else none
  | Method.post, [_, s] => if s = "tags" then some ExampleHandler.addTags else none
  | Method.deleteM, [_, s, _] => if s = "tags" then some ExampleHandler.removeTag else none
  | _, _ => none

/-- `parseInt(req.query.value) || 1` (no radix argument, so a `0x` prefix
switches to hexadecimal; `NaN` and `0` fall back to 1). -/
def incrementValueOf (v : Option String) : Int :=
  jsOrDefault (jsParseInt v false) 1

/-- `incrementCount`: `findByIdAndUpdate(id, \x7b$inc: \x7bcount: value\x7d\x7d,
\x7bnew: true\x7d)`, answering 200 with the updated document, 404 via
`ApiError` when the document is `null` or the id was malformed
(`CastError`), and forwarding any other error. -/
def incrementCount (id : String) (value : Option String) (db : DbFind ExampleDoc)
    (env : Option String) : DocResponse ExampleDoc :=
  match db with
  | DbFind.found d => DocResponse.ok { d with count := d.count + incrementValueOf value }
  | DbFind.absent => DocResponse.err (errorHandler (apiError 404 ("Example not found with id of " ++ id)) env)
  | DbFind.castErr => DocResponse.err (errorHandler (apiError 404 ("Example not found with id of " ++ id)) env)
  | DbFind.failure e => DocResponse.err (errorHandler e env)

/-!
## Claims
-/

/-- Query used to exhibit C1's failure: `search` is present (but empty)
together with a `category` filter. -/
def c1Query : ProductQuery := { search := some "", other := [("category", "books")] }

/-- C1 counterexample: a list request whose `search` parameter is present
with the empty value keeps the other filters — the filter passed to the
persistence layer is the category condition, not the text-search
condition — because the code tests `req.query.search` for truthiness,
not presence. -/
theorem c1_counterexample :
    c1Query.search = some "" ∧
    buildFilterE c1Query = Except.ok (DbFilter.query [("category", "books")] none) ∧
    DbFilter.query [("category", "books")] none ≠ DbFilter.textSearch "" :=
  ⟨rfl, by rfl, by decide⟩

/-- C1 (amended): for every product list request whose `search` query
parameter is present with a non-empty value, whenever filter construction
completes without throwing, the filter passed to the persistence layer is
exactly the full-text search condition on that value; every other filter
the request supplied is discarded. -/
theorem c1_search_replaces_filter (q : ProductQuery) (s : String)
    (hs : q.search = some s) (hne : s.isEmpty = false) (f : DbFilter)
    (hf : buildFilterE q = Except.ok f) : f = DbFilter.textSearch s := by
  unfold buildFilterE at hf
  split at hf
  · cases hf
  · split at hf
    · cases hf
    · rw [hs] at hf
      simp [hne] at hf
      exact hf.symm

/-- Query for the C1 witness: `search=hi` together with a category filter
and a price bound. -/
def c1wQuery : ProductQuery :=
  { search := some "hi", other := [("category", "books")], minPrice := some "5" }

/-- Witness for C1 (amended) at a concrete request. -/
theorem c1_witness :
    c1wQuery.search = some "hi" ∧ "hi".isEmpty = false ∧
    buildFilterE c1wQuery = Except.ok (DbFilter.textSearch "hi") ∧
    DbFilter.textSearch "hi" = DbFilter.textSearch "hi" :=
  ⟨rfl, rfl, by rfl,
    c1_search_replaces_filter c1wQuery "hi" rfl rfl (DbFilter.textSearch "hi") (by rfl)⟩

/-- Query used to exhibit C2's failure: `page=-2&limit=-5` (both parse,
so neither default applies). -/
def c2Query : ProductQuery := { pageQ := some "-2", limitQ := some "-5" }

/-- C2 counterexample: with parsed page `-2` and limit `-5` the
`startIndex > 0` test succeeds (`(-3)·(-5) = 15 > 0`), so the pagination
summary contains `prev` although `page > 1` is false. -/
theorem c2_counterexample :
    pageOf c2Query = -2 ∧ ¬ (1 < pageOf c2Query) ∧
    (paginate c2Query 11).prev = some ⟨-3, -5⟩ := by
  refine ⟨by decide, by decide, by decide⟩

/-- C2 (amended): for every product list request, the pagination summary
satisfies `totalPages = ceil(totalItems / limit)`; `next` is present iff
`page * limit < totalItems`; and `prev` is present iff
`(page - 1) * limit > 0` — which is equivalent to `page > 1` whenever the
parsed limit is positive (the divergence only arises for a negative
`limit` parameter). -/
theorem c2_pagination (q : ProductQuery) (total : Nat) :
    (paginate q total).totalPages = jsCeilDiv total (limitOf q) ∧
    ((paginate q total).next.isSome = true ↔ pageOf q * limitOf q < (total : Int)) ∧
    ((paginate q total).prev.isSome = true ↔ 0 < (pageOf q - 1) * limitOf q) ∧
    (0 < limitOf q → ((paginate q total).prev.isSome = true ↔ 1 < pageOf q)) := by
  have hprev : (paginate q total).prev.isSome = true ↔ 0 < (pageOf q - 1) * limitOf q := by
    simp only [paginate]
    split <;> simp_all
  refine ⟨rfl, ?_, hprev, fun hl => hprev.trans ?_⟩
  · simp only [paginate]
    split <;> simp_all
  · constructor
    · intro h'
      by_contra hc
      push_neg at hc
      nlinarith
    · intro h'
      exact mul_pos (by omega) hl

/-- Witness for C2 (amended) at a concrete request (defaults: page 1,
limit 10, total 25). -/
theorem c2_witness :
    0 < limitOf { } ∧
    ((paginate { } 25).prev.isSome = true ↔ 1 < pageOf { }) ∧
    (paginate { } 25).totalPages = jsCeilDiv 25 (limitOf { }) :=
  ⟨by decide, (c2_pagination { } 25).2.2.2 (by decide), (c2_pagination { } 25).1⟩

/-- C3: the operator rewrite is a single whole-string regex replacement
over the JSON-serialized filter, so a query value containing `gt` as a
standalone word is itself rewritten: `category=weight gt 5` reaches the
persistence layer as the altered value `weight $gt 5`. -/
theorem c3_rewrite_alters_values :
    buildFilterE { other := [("category", "weight gt 5")] } =
      Except.ok (DbFilter.query [("category", "weight $gt 5")] none) ∧
    replaceOps (jsonStringifyFlat [("category", "weight gt 5")]) =
      jsonStringifyFlat [("category", "weight $gt 5")] ∧
    "weight $gt 5" ≠ "weight gt 5" :=
  ⟨by rfl, by rfl, by decide⟩

/-- Error message of a single-document response, when it is an error. -/
def DocResponse.errMsg {α : Type} : DocResponse α → Option String
  | .ok _ => none
  | .err b => some b.error

/-- Query used to exhibit C4's failure: a non-numeric `minPrice`. -/
def c4Query : ProductQuery := { minPrice := some "abc" }

/-- C4 counterexample: a non-numeric `minPrice` is not dropped — the
filter passed to the persistence layer carries a price condition whose
`$gte` bound is `parseFloat("abc") = NaN`. -/
theorem c4_counterexample :
    qTruthy c4Query.minPrice = true ∧
    jsParseFloat c4Query.minPrice = JSNum.nan ∧
    buildFilterE c4Query =
      Except.ok (DbFilter.query [] (some { gte := some JSNum.nan, lte := none })) ∧
    (some { gte := some JSNum.nan, lte := none } : Option PriceCond) ≠ none :=
  ⟨by decide, by decide, by rfl, by decide⟩

/-- When `minPrice` or `maxPrice` is truthy and the price block
completes, the filter carries a price condition whose `$gte` bound is
`parseFloat(minPrice)` whenever `minPrice` is truthy and whose `$lte`
bound is `parseFloat(maxPrice)` whenever `maxPrice` is truthy. -/
theorem priceStep_sets_bounds (base : List (String × String)) (minP maxP : Option String)
    (hmm : (qTruthy minP || qTruthy maxP) = true)
    (b2 : List (String × String)) (p : Option PriceCond)
    (h : priceStep base minP maxP = Except.ok (b2, p)) :
    p = some { gte := if qTruthy minP then some (jsParseFloat minP) else none,
               lte := if qTruthy maxP then some (jsParseFloat maxP) else none } := by
  unfold priceStep at h
  split at h
  · split at h
    · split at h
      · exact (Prod.mk.injEq _ _ _ _ ▸ (Except.ok.inj h)).2.symm
      · cases h
    · exact (Prod.mk.injEq _ _ _ _ ▸ (Except.ok.inj h)).2.symm
  · rename_i hcond
    exact absurd hmm hcond

/-- C4 (amended): non-numeric `page`/`limit` silently fall back to the
defaults 1 and 10; a non-numeric (truthy) `minPrice` or `maxPrice` —
each alone or together — is *not* dropped but contributes a price
condition whose corresponding bound is parseFloat's NaN; and such
requests still answer 200 whenever the persistence calls succeed — no
validation error response is produced. -/
theorem c4_lenient_parsing (q : ProductQuery) :
    (jsParseInt q.pageQ true = none → pageOf q = 1) ∧
    (jsParseInt q.limitQ true = none → limitOf q = 10) ∧
    (∀ b p, (qTruthy q.minPrice || qTruthy q.maxPrice) = true →
      buildFilterE q = Except.ok (DbFilter.query b p) →
      p = some { gte := if qTruthy q.minPrice then some (jsParseFloat q.minPrice) else none,
                 lte := if qTruthy q.maxPrice then some (jsParseFloat q.maxPrice) else none }) ∧
    (∀ env db f total items, buildFilterE q = Except.ok f → db f = ListDb.ok total items →
      (getProducts q db env).status = 200) := by
  refine ⟨?_, ?_, ?_, ?_⟩
  · intro h; unfold pageOf; rw [h]; rfl
  · intro h; unfold limitOf; rw [h]; rfl
  · intro b p hmin hf
    unfold buildFilterE at hf
    split at hf
    · cases hf
    · rename_i base hbase
      split at hf
      · cases hf
      · rename_i base2 price hps
        have hp : p = price := by
          split at hf
          · split at hf
            · cases hf
            · exact ((DbFilter.query.injEq _ _ _ _ ▸ (Except.ok.inj hf)).2).symm
          · exact ((DbFilter.query.injEq _ _ _ _ ▸ (Except.ok.inj hf)).2).symm
        rw [hp]
        exact priceStep_sets_bounds base q.minPrice q.maxPrice hmin base2 price hps
  · intro env db f total items hbf hdb
    simp [getProducts, hbf, hdb, ListResponse.status]

/-- Query for the C4 witness: non-numeric page, limit and minPrice. -/
def c4wQuery : ProductQuery :=
  { pageQ := some "twenty", limitQ := some "lots", minPrice := some "abc" }

/-- Query for the C4 witness: a non-numeric maxPrice on its own. -/
def c4wQueryMax : ProductQuery := { maxPrice := some "abc" }

/-- Persistence stub for the C4 witness. -/
def c4wDb : DbFilter → ListDb := fun _ => ListDb.ok 0 []

/-- Witness for C4 (amended) at concrete requests: non-numeric page,
limit and minPrice together, and a non-numeric maxPrice alone. -/
theorem c4_witness :
    jsParseInt c4wQuery.pageQ true = none ∧ pageOf c4wQuery = 1 ∧
    jsParseInt c4wQuery.limitQ true = none ∧ limitOf c4wQuery = 10 ∧
    (qTruthy c4wQuery.minPrice || qTruthy c4wQuery.maxPrice) = true ∧
    (some { gte := some JSNum.nan, lte := none } : Option PriceCond) =
      some { gte := if qTruthy c4wQuery.minPrice then some (jsParseFloat c4wQuery.minPrice) else none,
             lte := if qTruthy c4wQuery.maxPrice then some (jsParseFloat c4wQuery.maxPrice) else none } ∧
    (qTruthy c4wQueryMax.minPrice || qTruthy c4wQueryMax.maxPrice) = true ∧
    (some { gte := none, lte := some JSNum.nan } : Option PriceCond) =
      some { gte := if qTruthy c4wQueryMax.minPrice then some (jsParseFloat c4wQueryMax.minPrice) else none,
             lte := if qTruthy c4wQueryMax.maxPrice then some (jsParseFloat c4wQueryMax.maxPrice) else none } ∧
    (getProducts c4wQuery c4wDb none).status = 200 :=
  ⟨by decide, (c4_lenient_parsing c4wQuery).1 (by decide),
   by decide, (c4_lenient_parsing c4wQuery).2.1 (by decide),
   by decide,
   (c4_lenient_parsing c4wQuery).2.2.1 [] (some { gte := some JSNum.nan, lte := none })
     (by decide) (by rfl),
   by decide,
   (c4_lenient_parsing c4wQueryMax).2.2.1 [] (some { gte := none, lte := some JSNum.nan })
     (by decide) (by rfl),
   (c4_lenient_parsing c4wQuery).2.2.2 none c4wDb
     (DbFilter.query [] (some { gte := some JSNum.nan, lte := none })) 0 [] (by rfl) rfl⟩

/-- C5: a get-by-id request whose identifier raises a cast failure in the
persistence layer is answered with a 404 error naming the requested id
(via an `ApiError(404, ...)` forwarded to the error middleware), never
with a 500. -/
theorem c5_cast_error_is_404 (id : String) (env : Option String) :
    (getProductById id DbFind.castErr env).status = 404 ∧
    (getProductById id DbFind.castErr env).errMsg =
      some ("Product not found with id of " ++ id) ∧
    (getProductById id DbFind.castErr env).status ≠ 500 := by
  refine ⟨?_, ?_, ?_⟩ <;>
    simp [getProductById, errorHandler, apiError, DocResponse.status, DocResponse.errMsg]

/-- A plain (non-`ApiError`) error value. -/
def plainError : JsError := { name := "Error", message := "boom", stackTrace := "trace-here" }

/-- C6 counterexample: in the NODE_ENV value "test" — a non-production
environment — the error middleware omits the stack field, because the
code includes it only when NODE_ENV is exactly "development". -/
theorem c6_counterexample :
    (errorHandler plainError (some "test")).stack = none ∧
    some "test" ≠ some "production" :=
  ⟨rfl, by decide⟩

/-- C6 (amended): the error middleware's response includes the stack
field exactly when NODE_ENV is "development"; in particular in
production (and any other non-development environment) the stack field
is never present. -/
theorem c6_stack_development_only (err : JsError) (env : Option String) :
    ((errorHandler err env).stack.isSome = true ↔ env = some "development") ∧
    (env = some "production" → (errorHandler err env).stack = none) := by
  constructor
  · unfold errorHandler
    cases h : err.apiStatus <;> simp_all
    split_ifs <;> simp_all
  · intro hp
    subst hp
    unfold errorHandler
    cases h : err.apiStatus <;> simp_all
    split_ifs <;> simp_all

/-- Witness for C6 (amended): development shows the stack, production
does not. -/
theorem c6_witness :
    (errorHandler plainError (some "development")).stack.isSome = true ∧
    (errorHandler plainError (some "production")).stack = none :=
  ⟨(c6_stack_development_only plainError (some "development")).1.mpr rfl,
   (c6_stack_development_only plainError (some "production")).2 rfl⟩

/-- C7: the `protect` middleware's contract: a falsy bearer token fails
401 "no token"; a failing verification fails 401 "invalid token"; a
verified identity with no matching user record fails 401 "user not
found"; otherwise the resolved user — with the password hash excluded —
is attached and control passes onward. -/
theorem c7_protect_contract (auth : Option String) (verify : String → VerifyResult)
    (findUser : String → UserLookup) :
    ((extractToken auth = none ∨ extractToken auth = some "") →
      protect auth verify findUser =
        MwResult.nextError (apiError 401 "Not authorized, no token")) ∧
    (∀ t, extractToken auth = some t → t.isEmpty = false → verify t = VerifyResult.fail →
      protect auth verify findUser =
        MwResult.nextError (apiError 401 "Not authorized, invalid token")) ∧
    (∀ t uid, extractToken auth = some t → t.isEmpty = false →
      verify t = VerifyResult.ok uid → findUser uid = UserLookup.missing →
      protect auth verify findUser =
        MwResult.nextError (apiError 401 "Not authorized, user not found")) ∧
    (∀ t uid u, extractToken auth = some t → t.isEmpty = false →
      verify t = VerifyResult.ok uid → findUser uid = UserLookup.found u →
      protect auth verify findUser = MwResult.pass (sanitizeUser u)) := by
  refine ⟨?_, ?_, ?_, ?_⟩
  · have he : "".isEmpty = true := rfl
    rintro (h | h) <;> simp [protect, h, he]
  · intro t ht hemp hv
    simp [protect, ht, hemp, hv]
  · intro t uid ht hemp hv hu
    simp [protect, ht, hemp, hv, hu]
  · intro t uid u ht hemp hv hu
    simp [protect, ht, hemp, hv, hu]

/-- A stored user for the C7 witness. -/
def c7User : StoredUser :=
  { id := "u1", name := "Ada", email := "ada@example.com",
    passwordHash := "hashed-secret", role := "admin" }

/-- Verification stub for the C7 witness. -/
def c7Verify : String → VerifyResult := fun _ => VerifyResult.ok "u1"

/-- User lookup stub for the C7 witness. -/
def c7Find : String → UserLookup := fun _ => UserLookup.found c7User

/-- Witness for C7 at concrete requests: a missing header fails with
"no token", and a verified token whose user exists passes the sanitized
user onward. -/
theorem c7_witness :
    protect none c7Verify c7Find =
      MwResult.nextError (apiError 401 "Not authorized, no token") ∧
    extractToken (some "Bearer tok") = some "tok" ∧
    protect (some "Bearer tok") c7Verify c7Find = MwResult.pass (sanitizeUser c7User) :=
  ⟨(c7_protect_contract none c7Verify c7Find).1 (Or.inl rfl),
   by decide,
   (c7_protect_contract (some "Bearer tok") c7Verify c7Find).2.2.2 "tok" "u1" c7User
     (by decide) (by decide) rfl rfl⟩

/-- C8: the `authorize(roles)` step fails 401 when no user is attached,
fails 403 when the attached user's role is not among the permitted
roles, and passes control onward when it is. -/
theorem c8_authorize_contract (roles : List String) (user : Option SafeUser) :
    (user = none →
      authorize roles user = MwResult.nextError (apiError 401 "Not authorized, no user")) ∧
    (∀ u, user = some u → u.role ∉ roles →
      authorize roles user = MwResult.nextError
        (apiError 403 ("User role " ++ u.role ++ " is not authorized to access this route"))) ∧
    (∀ u, user = some u → u.role ∈ roles → authorize roles user = MwResult.pass ()) := by
  refine ⟨?_, ?_, ?_⟩
  · intro h; simp [authorize, h]
  · intro u hu hrole
    have hc : roles.contains u.role = false := by
      simpa using hrole
    simp only [authorize, hu, hc, Bool.false_eq_true, if_false]
  · intro u hu hrole
    have hc : roles.contains u.role = true := by
      simpa using hrole
    simp only [authorize, hu, hc, if_true]

/-- A non-admin user for the C8 witness. -/
def c8User : SafeUser := { id := "u2", name := "Bo", email := "bo@example.com", role := "user" }

/-- Witness for C8 at concrete inputs: no attached user gives 401; role
"user" against permitted ["admin"] gives 403; role "user" against
permitted ["user", "admin"] passes. -/
theorem c8_witness :
    authorize ["admin"] none = MwResult.nextError (apiError 401 "Not authorized, no user") ∧
    authorize ["admin"] (some c8User) = MwResult.nextError
      (apiError 403 ("User role " ++ "user" ++ " is not authorized to access this route")) ∧
    authorize ["user", "admin"] (some c8User) = MwResult.pass () :=
  ⟨(c8_authorize_contract ["admin"] none).1 rfl,
   (c8_authorize_contract ["admin"] (some c8User)).2.1 c8User rfl (by decide),
   (c8_authorize_contract ["user", "admin"] (some c8User)).2.2 c8User rfl (by decide)⟩

/-- C9 counterexample: the increment route is registered as
`PATCH /:id/increment` only, so a *GET* request to
`/api/examples/:id/increment` matches no route of the examples router
and falls through to the app-level 404 handler — it is not answered
with 200. -/
theorem c9_counterexample :
    matchExampleRoute Method.get ["60d0fe4f5311236168a109cb", "increment"] = none ∧
    (notFoundResponse "/api/examples/60d0fe4f5311236168a109cb/increment?value=5").status = 404 ∧
    (404 : Nat) ≠ 200 :=
  ⟨rfl, rfl, by decide⟩

/-- C9 (amended): a *PATCH* request to `/api/examples/:id/increment?value=5`
routes to `incrementCount`, and on an existing example whose count is 2
it answers 200 with the updated record whose count is 7. -/
theorem c9_patch_increment (id : String) (env : Option String) (d : ExampleDoc)
    (h : d.count = 2) :
    matchExampleRoute Method.patchM [id, "increment"] = some ExampleHandler.incrementCount ∧
    incrementCount id (some "5") (DbFind.found d) env = DocResponse.ok { d with count := 7 } := by
  constructor
  · rfl
  · have h5 : incrementValueOf (some "5") = 5 := by decide
    simp only [incrementCount, h5, h]
    norm_num

/-- An example document with count 2 for the C9 witness. -/
def c9Doc : ExampleDoc :=
  { title := "demo", description := "", isActive := true, tags := [], count := 2 }

/-- Witness for C9 (amended) at a concrete request. -/
theorem c9_witness :
    c9Doc.count = 2 ∧
    matchExampleRoute Method.patchM ["60d0", "increment"] = some ExampleHandler.incrementCount ∧
    incrementCount "60d0" (some "5") (DbFind.found c9Doc) none =
      DocResponse.ok { c9Doc with count := 7 } :=
  ⟨rfl, (c9_patch_increment "60d0" none c9Doc rfl).1, (c9_patch_increment "60d0" none c9Doc rfl).2⟩

/-- C10: an increment request on an existing example whose `value`
parameter is absent, non-numeric, or parses to 0 increments the stored
count by exactly 1 (the `|| 1` fallback treats both NaN and 0 as
falsy). -/
theorem c10_increment_default (id : String) (env : Option String) (v : Option String)
    (d : ExampleDoc)
    (h : v = none ∨ jsParseInt v false = none ∨ jsParseInt v false = some 0) :
    incrementCount id v (DbFind.found d) env = DocResponse.ok { d with count := d.count + 1 } := by
  have h1 : incrementValueOf v = 1 := by
    unfold incrementValueOf jsOrDefault
    rcases h with h | h | h
    · subst h; rfl
    · rw [h]
    · rw [h]; rfl
  simp only [incrementCount, h1]

/-- Witness for C10: explicitly requesting `value=0` still increments by
1 (count 2 becomes 3). -/
theorem c10_witness :
    jsParseInt (some "0") false = some 0 ∧
    incrementCount "60d0" (some "0") (DbFind.found c9Doc) none =
      DocResponse.ok { c9Doc with count := c9Doc.count + 1 } :=
  ⟨by decide,
   c10_increment_default "60d0" none (some "0") c9Doc (Or.inr (Or.inr (by decide)))⟩
